import Mathlib

/-!
Verification of the dvbzap main program (src/src/dvbzap.c) against its
natural-language specification.  The definitions below are a shallow
embedding of the code of `main` and `SignalHandler`: configuration-file
processing is modelled as a fold over tokenised lines, the post-configuration
part of `main` as a function from an environment of external outcomes to the
list of observable events it performs, and the signal handler as a pure
function from the delivered signal and the global state it reads to the
action it takes.  Machine `int` values are modelled as `Int`.
-/

namespace Dvbzap

/-- Modelled from the spec: exit/error codes of the missing header errors.h.
§7 of the spec requires a specific exit code per failure class; the numeric
values are not in src/, so the codes are modelled as a plain enumeration of
the names used by dvbzap.c. -/
inductive ErrCode
  | ERROR_CONF_FILE
  | ERROR_CONF
  | ERROR_TOO_CHANNELS
  | ERROR_CREATE_FILE
  | ERROR_TUNE
deriving DecidableEq, Repr

/-- Modelled from the spec: the channel readiness states of §4.4
(NOT_READY, ALMOST_READY, READY, STREAMING).  The enum itself lives in the
missing header mumudvb.h; `NOT_READY` is the zero/default state because
`chan_p` is zero-initialised with `memset` at the top of `main`
(dvbzap.c line 198). -/
inductive ChanReady
  | NOT_READY
  | ALMOST_READY
  | READY
  | STREAMING
deriving DecidableEq, Repr

/-- One tokenised configuration line, after the `strtok` splitting and `atoi`
conversion performed by the reading loop (dvbzap.c lines 394-691).  Only the
options whose semantics the claims are about are modelled; every other
recognised or unknown line behaves like `unknown` for the state we track
(it performs no modelled state change; a genuinely unknown option also skips
the channel-count check via `continue`, line 676). -/
inductive ConfLine
  | newChannel
  | dvrBufferSize (v : Int)
  | dvrThreadBufferSize (v : Int)
  | pids (vals : List Int)
  | t2miPid (v : Int)
  | unknown
deriving DecidableEq, Repr

/-- The configuration-time state accumulated by the reading loop of `main`.
`readyWrites` logs every store `chan_p.channels[i].channel_ready = v`
(index, value); `pidWrites` logs every store
`c_chan->pid_i.pids[slot] = v` as (channel, slot, value); `numPidsW` logs the
stores to `c_chan->pid_i.num_pids`.  The remaining fields mirror the scalar
variables `ichan` (starts at -1, line 350), `card_buffer.dvr_buffer_size`,
`card_buffer.max_thread_buffer_size`, `stats_infos.show_buffer_stats` and
`chan_p.t2mi_pid`. -/
structure PState where
  ichan : Int
  readyWrites : List (Int × ChanReady)
  pidWrites : List (Int × Nat × Int)
  numPidsW : List (Int × Nat)
  dvrBufferSize : Int
  maxThreadBufferSize : Int
  showBufferStats : Bool
  t2miPid : Int
deriving DecidableEq, Repr

/-- Initial state before the reading loop: `ichan = -1` (line 350),
`chan_p` zeroed (line 198), buffer sizes set to `DEFAULT_TS_BUFFER_SIZE` and
`DEFAULT_THREAD_BUFFER_SIZE` (lines 275-276; the numeric defaults live in the
missing header mumudvb.h, so they are parameters here). -/
def initState (dDvr dThread : Int) : PState :=
  { ichan := -1
    readyWrites := []
    pidWrites := []
    numPidsW := []
    dvrBufferSize := dDvr
    maxThreadBufferSize := dThread
    showBufferStats := false
    t2miPid := 0 }

/-- The check at the bottom of the reading loop (dvbzap.c lines 679-684):
`if (ichan > MAX_CHANNELS) exit(ERROR_TOO_CHANNELS)`.  `mc` is
`MAX_CHANNELS` (value in the missing header mumudvb.h, kept as a parameter).
The error carries the state reached so far, so that stores performed before
the exit stay observable. -/
def chanCheck (mc : Nat) (s : PState) : Except (ErrCode × PState) PState :=
  if s.ichan > (mc : Int) then .error (.ERROR_TOO_CHANNELS, s) else .ok s

/-- The `while ((substring = strtok ...))` loop of the `pids` option
(dvbzap.c lines 574-593): each value is stored into
`c_chan->pid_i.pids[ipid]` first, then rejected with `ERROR_CONF` if
`pid < 10 || pid >= 8193`, then `ipid` is incremented and parsing aborts with
`ERROR_CONF` when `ipid >= MAX_PIDS` (`mp`, from the missing header). -/
def pidsLoop (mp : Nat) (chan : Int) (s : PState) (ipid : Nat) :
    List Int → Except (ErrCode × PState) (PState × Nat)
  | [] => .ok (s, ipid)
  | v :: rest =>
      if v < 10 ∨ v ≥ 8193 then
        .error (.ERROR_CONF, { s with pidWrites := (chan, ipid, v) :: s.pidWrites })
      else if ipid + 1 ≥ mp then
        .error (.ERROR_CONF, { s with pidWrites := (chan, ipid, v) :: s.pidWrites })
      else
        pidsLoop mp chan { s with pidWrites := (chan, ipid, v) :: s.pidWrites } (ipid + 1) rest

/-- One iteration of the configuration reading loop of `main`
(dvbzap.c lines 394-691) on an already tokenised line, restricted to the
modelled options:
`new_channel` (lines 481-486) increments `ichan` and stores `ALMOST_READY`;
`dvr_buffer_size` (lines 521-532) clamps non-positive values to 1;
`dvr_thread_buffer_size` (lines 543-547) stores the value unchecked;
`pids` (lines 561-595) requires an open channel and runs `pidsLoop`;
`t2mi_pid` (lines 654-664) forces out-of-range values to 4096;
an unknown option (lines 671-677) logs and `continue`s.
Every recognised line then reaches the channel-count check of lines 679-684. -/
def stepLine (mc mp : Nat) (s : PState) : ConfLine → Except (ErrCode × PState) PState
  | .newChannel =>
      chanCheck mc { s with
        ichan := s.ichan + 1
        readyWrites := (s.ichan + 1, .ALMOST_READY) :: s.readyWrites }
  | .dvrBufferSize v =>
      chanCheck mc { s with
        dvrBufferSize := if v ≤ 0 then 1 else v
        showBufferStats := true }
  | .dvrThreadBufferSize v =>
      chanCheck mc { s with maxThreadBufferSize := v }
  | .pids vals =>
      if s.ichan < 0 then .error (.ERROR_CONF, s)
      else
        match pidsLoop mp s.ichan s 0 vals with
        | .error e => .error e
        | .ok (s1, ipid) => chanCheck mc { s1 with numPidsW := (s.ichan, ipid) :: s1.numPidsW }
  | .t2miPid v =>
      chanCheck mc { s with t2miPid := if v < 1 ∨ v > 8192 then 4096 else v }
  | .unknown => .ok s

/-- The whole configuration reading loop: fold `stepLine` over the lines,
aborting at the first `exit`. -/
def runConf (mc mp : Nat) (s : PState) : List ConfLine → Except (ErrCode × PState) PState
  | [] => .ok s
  | l :: ls =>
      match stepLine mc mp s l with
      | .error e => .error e
      | .ok s1 => runConf mc mp s1 ls

/-- The state reached by a loop outcome, whether it exited or not (an exit
carries the state reached so far, so stores that preceded the exit remain
observable). -/
def stateOf : Except (ErrCode × PState) PState → PState
  | .ok s => s
  | .error (_, s) => s

/-- The exit code of a loop outcome, `none` when the loop did not exit. -/
def errOf : Except (ErrCode × PState) PState → Option ErrCode
  | .ok _ => none
  | .error (e, _) => some e

/-- The value of `chan_p.channels[i].channel_ready` in a state: the most
recent write to index `i`, or `NOT_READY` (the `memset` default) when the
index was never written. -/
def readinessAt (s : PState) (i : Int) : ChanReady :=
  match s.readyWrites.find? (fun p => p.1 == i) with
  | some p => p.2
  | none => .NOT_READY

/-- The first fix-up `main` applies after the reading loop
(dvbzap.c lines 731-736): with T2-MI demuxing enabled (`t2mi_pid > 0`) a
`dvr_buffer_size` below 20 is raised to 20, with a warning. -/
def t2miFix (s : PState) : PState :=
  if s.t2miPid > 0 ∧ s.dvrBufferSize < 20 then { s with dvrBufferSize := 20 } else s

/-- The two fix-ups that `main` applies after the reading loop
(dvbzap.c lines 731-743): the T2-MI fix-up of `t2miFix`, then a
`max_thread_buffer_size` below `dvr_buffer_size` is raised to
`dvr_buffer_size` (lines 738-743).  Both are warnings, not errors. -/
def postConf (s : PState) : PState :=
  if (t2miFix s).maxThreadBufferSize < (t2miFix s).dvrBufferSize then
    { t2miFix s with maxThreadBufferSize := (t2miFix s).dvrBufferSize }
  else t2miFix s

/-- A recorded cause of interruption, as passed to `set_interrupted`:
either a raw signal number (`set_interrupted(signum)`, dvbzap.c line 1021)
or an error code shifted left by 8 bits
(`set_interrupted(ERROR_CONF<<8)` line 821, `set_interrupted(ERROR_TUNE<<8)`
line 954) -- the shift keeps error codes disjoint from signal numbers, so the
two are modelled as separate constructors. -/
inductive Cause
  | sig (n : Nat)
  | errShifted (e : ErrCode)
deriving DecidableEq, Repr

/-- The observable events of the part of `main` after configuration
processing (dvbzap.c lines 789-986).  The four pipeline constructors
(`acquirePackets`, `routePacket`, `rewritePSITables`, `dispatchToSinks`) name
the stages of the transport-stream processing pipeline the spec describes;
they are referenced by the spec-side predicate `entersPipeline`. -/
inductive Ev
  | setInterrupted (c : Cause)
  | callMumudvbClose
  | createStreamedFile
  | createNotStreamedFile
  | disableWriteStreamed
  | installSignalHandlers
  | armAlarm (secs : Int)
  | openFrontend
  | writePidFile
  | exitNow (e : ErrCode)
  | tuneCard
  | setCardTuned
  | closeCardFd
  | acquirePackets
  | routePacket
  | rewritePSITables
  | dispatchToSinks
deriving DecidableEq, Repr

/-- The outcomes of the external calls made by `main` after configuration
processing, as an environment: the configured output flags (`multi_p.ttl`,
`multi_p.multicast`, `unic_p.unicast`), whether the two channel-list files
could be created (`fopen` results, lines 836 and 847), daemon mode and the
PID-file `fopen` result (lines 918-938), whether the input is a file
(`strlen(tune_p.read_file_path)`, line 901), the `open_fe` result
(line 906/909) and the `tune_it` result (line 944), and
`tune_p.tuning_timeout` (line 891). -/
structure MainEnv where
  multicast : Bool
  ttl : Int
  unicast : Bool
  streamedFileOk : Bool
  notStreamedFileOk : Bool
  noDaemon : Bool
  pidFileOk : Bool
  fileInput : Bool
  openOk : Bool
  tuneOk : Bool
  tuningTimeout : Int

/-- The path taken when no output sink is configured
(dvbzap.c lines 818-823): `set_interrupted(ERROR_CONF<<8)` followed by the
jump to `mumudvb_close`. -/
def sinkCheckFailPath : List Ev :=
  [.setInterrupted (.errShifted .ERROR_CONF), .callMumudvbClose]

/-- Creation of the streamed / not-streamed channel-list files
(dvbzap.c lines 836-856): each `fopen(..., "w")` failure sets
`write_streamed_channels = 0` and logs a warning; execution continues in
either case. -/
def fileCreationPhase (e : MainEnv) : List Ev :=
  [.createStreamedFile] ++
  (if e.streamedFileOk then [] else [.disableWriteStreamed]) ++
  [.createNotStreamedFile] ++
  (if e.notStreamedFileOk then [] else [.disableWriteStreamed])

/-- Installation of the signal handlers for SIGALRM, SIGUSR1, SIGUSR2 and
SIGHUP (dvbzap.c lines 882-889) and arming of the one-shot tuning-timeout
alarm when a timeout is configured
(`if (tune_p.tuning_timeout) alarm(tune_p.tuning_timeout)`, lines 891-894). -/
def signalPhase (e : MainEnv) : List Ev :=
  [.installSignalHandlers] ++
  (if e.tuningTimeout ≠ 0 then [.armAlarm e.tuningTimeout] else [])

/-- The failure path when `open_fe` or `tune_it` fails (dvbzap.c
lines 949-956): close the card descriptors, `set_interrupted(ERROR_TUNE<<8)`,
jump to `mumudvb_close`. -/
def tuneFailTail : List Ev :=
  [.closeCardFd, .setInterrupted (.errShifted .ERROR_TUNE), .callMumudvbClose]

/-- What `main` does once `open_fe` has succeeded (dvbzap.c lines 910-964):
when daemonized, write the PID file, exiting with `ERROR_CREATE_FILE` if it
cannot be created (lines 918-938); call `tune_it` unless the input is a file
(lines 940-944); on tuning failure take `tuneFailTail` (lines 949-956); on
success set `card_tuned = 1` (line 958), close the card descriptors
(line 960) and jump to `mumudvb_close` (line 964). -/
def postOpenPhase (e : MainEnv) : List Ev :=
  if !e.noDaemon && !e.pidFileOk then [.exitNow .ERROR_CREATE_FILE]
  else
    (if e.noDaemon then [] else [.writePidFile]) ++
    (if e.fileInput then [] else [.tuneCard]) ++
    (if e.fileInput || e.tuneOk then [.setCardTuned, .closeCardFd, .callMumudvbClose]
     else tuneFailTail)

/-- The event trace of `main` from the end of configuration processing to
process termination (dvbzap.c lines 789-986).  A zero `multi_p.ttl` disables
multicast (lines 797-801); with neither multicast nor unicast the program
takes `sinkCheckFailPath` (lines 818-823); otherwise it creates the
channel-list files, installs the signal handlers, arms the tuning alarm,
opens the frontend (line 906/909) and proceeds with `postOpenPhase`, or with
`tuneFailTail` when the open failed (lines 946-956). -/
def mainAfterConfig (e : MainEnv) : List Ev :=
  if (e.multicast && decide (e.ttl ≠ 0)) || e.unicast then
    fileCreationPhase e ++ signalPhase e ++ [.openFrontend] ++
    (if e.openOk then postOpenPhase e else tuneFailTail)
  else sinkCheckFailPath

/-- Spec-side predicate, from the claim's words: a trace of `main` enters the
transport-stream processing pipeline if it performs packet acquisition,
PID routing, PSI-table rewriting or dispatch to the network sinks. -/
def entersPipeline (tr : List Ev) : Prop :=
  Ev.acquirePackets ∈ tr ∨ Ev.routePacket ∈ tr ∨
  Ev.rewritePSITables ∈ tr ∨ Ev.dispatchToSinks ∈ tr

instance (tr : List Ev) : Decidable (entersPipeline tr) := by
  unfold entersPipeline
  exact inferInstance

/-! Signal-handler model (dvbzap.c lines 1003-1024). -/

/-- Linux signal number of SIGHUP. -/
def SIGHUP : Nat := 1

/-- Linux signal number of SIGUSR1. -/
def SIGUSR1 : Nat := 10

/-- Linux signal number of SIGUSR2. -/
def SIGUSR2 : Nat := 12

/-- Linux signal number of SIGPIPE. -/
def SIGPIPE : Nat := 13

/-- Linux signal number of SIGALRM. -/
def SIGALRM : Nat := 14

/-- The action taken by one invocation of `SignalHandler`:
`exitProcess` is the `exit(ERROR_TUNE)` of line 1011, `recordSignal` the
`received_signal = signum` of line 1016, `setInterrupted` the
`set_interrupted(signum)` of line 1021, and `noAction` the fall-through
(SIGPIPE, or SIGALRM with the card already tuned).  Every invocation also
re-installs the handler (line 1023), which is unconditional and therefore not
part of the action. -/
inductive SigAction
  | exitProcess (e : ErrCode)
  | recordSignal (n : Nat)
  | setInterrupted (n : Nat)
  | noAction
deriving DecidableEq, Repr

/-- The `SignalHandler` function (dvbzap.c lines 1003-1024) as a pure
function of the delivered signal and the global state it reads:
`interrupted` is whether `get_interrupted()` is non-zero, and `cardTuned`
models the `card_tuned` pointer (`none` when the pointer is null, otherwise
the boolean it points to). -/
def SignalHandler (signum : Nat) (interrupted : Bool) (cardTuned : Option Bool) : SigAction :=
  if signum = SIGALRM ∧ interrupted = false then
    match cardTuned with
    | some false => .exitProcess .ERROR_TUNE
    | _ => .noAction
  else if signum = SIGUSR1 ∨ signum = SIGUSR2 ∨ signum = SIGHUP then
    .recordSignal signum
  else if signum ≠ SIGPIPE then .setInterrupted signum
  else .noAction

/-- Spec-side definition, from the claim's words: the signal policy exactly
as the claim states it -- SIGALRM enforces the tuning timeout (exiting with
the tuning-error code when the card is not yet tuned), SIGUSR1 / SIGUSR2 /
SIGHUP are recorded, SIGPIPE is ignored, and every other signal sets the
interrupt flag with the signal number as the exit cause. -/
def claimedSignalPolicy (signum : Nat) (cardTuned : Option Bool) : SigAction :=
  if signum = SIGALRM then
    match cardTuned with
    | some false => .exitProcess .ERROR_TUNE
    | _ => .noAction
  else if signum = SIGUSR1 ∨ signum = SIGUSR2 ∨ signum = SIGHUP then
    .recordSignal signum
  else if signum = SIGPIPE then .noAction
  else .setInterrupted signum

/-! Helper lemmas. -/

/-- A successful channel-count check leaves the state unchanged. -/
theorem chanCheck_ok {mc : Nat} {s s' : PState} (h : chanCheck mc s = .ok s') : s' = s := by
  unfold chanCheck at h
  split at h
  · cases h
  · cases h
    rfl

/-- The state reached by a channel-count check is the state it was given,
whether it exited or not. -/
theorem stateOf_chanCheck (mc : Nat) (s : PState) : stateOf (chanCheck mc s) = s := by
  unfold chanCheck
  split <;> rfl

/-- The channel-count check exits only with `ERROR_TOO_CHANNELS`. -/
theorem errOf_chanCheck (mc : Nat) (s : PState) :
    errOf (chanCheck mc s) = none ∨ errOf (chanCheck mc s) = some .ERROR_TOO_CHANNELS := by
  unfold chanCheck
  split
  · right; rfl
  · left; rfl

/-- The `pids` inner loop only appends to `pidWrites`: every other tracked
field of the state is unchanged on success. -/
theorem pidsLoop_fields {mp : Nat} {c : Int} {s' : PState} {i' : Nat} :
    ∀ (vs : List Int) (s : PState) (i : Nat),
      pidsLoop mp c s i vs = .ok (s', i') →
      s'.ichan = s.ichan ∧ s'.readyWrites = s.readyWrites ∧
      s'.dvrBufferSize = s.dvrBufferSize ∧
      s'.maxThreadBufferSize = s.maxThreadBufferSize ∧ s'.t2miPid = s.t2miPid := by
  intro vs
  induction vs with
  | nil =>
      intro s i h
      simp only [pidsLoop] at h
      cases h
      exact ⟨rfl, rfl, rfl, rfl, rfl⟩
  | cons v rest ih =>
      intro s i h
      simp only [pidsLoop] at h
      split at h
      · cases h
      · split at h
        · cases h
        · exact ih { s with pidWrites := (c, i, v) :: s.pidWrites } (i + 1) h

/-- One line of configuration reading keeps `dvr_buffer_size` at least 1:
the only option that changes it clamps non-positive values to 1. -/
theorem stepLine_dvr_ge_one {mc mp : Nat} {s s' : PState} {l : ConfLine}
    (h : stepLine mc mp s l = .ok s') (h1 : 1 ≤ s.dvrBufferSize) :
    1 ≤ s'.dvrBufferSize := by
  cases l with
  | newChannel =>
      simp only [stepLine] at h
      have := chanCheck_ok h
      subst this
      exact h1
  | dvrBufferSize v =>
      simp only [stepLine] at h
      have := chanCheck_ok h
      subst this
      by_cases hv : v ≤ 0 <;> simp only [hv, if_true, if_false, ite_true, ite_false] <;> omega
  | dvrThreadBufferSize v =>
      simp only [stepLine] at h
      have := chanCheck_ok h
      subst this
      exact h1
  | pids vals =>
      simp only [stepLine] at h
      split at h
      · cases h
      · split at h
        · cases h
        · rename_i s1 ipid hpl
          have := chanCheck_ok h
          subst this
          have hf := pidsLoop_fields _ _ _ hpl
          have : s1.dvrBufferSize = s.dvrBufferSize := hf.2.2.1
          simpa [this] using h1
  | t2miPid v =>
      simp only [stepLine] at h
      have := chanCheck_ok h
      subst this
      exact h1
  | unknown =>
      simp only [stepLine] at h
      cases h
      exact h1

/-- The whole configuration reading loop keeps `dvr_buffer_size` at least 1. -/
theorem runConf_dvr_ge_one {mc mp : Nat} {s' : PState} :
    ∀ (lines : List ConfLine) (s : PState),
      runConf mc mp s lines = .ok s' → 1 ≤ s.dvrBufferSize → 1 ≤ s'.dvrBufferSize := by
  intro lines
  induction lines with
  | nil =>
      intro s h h1
      simp only [runConf] at h
      cases h
      exact h1
  | cons l ls ih =>
      intro s h h1
      simp only [runConf] at h
      split at h
      · cases h
      · rename_i s1 hst
        exact ih _ h (stepLine_dvr_ge_one hst h1)

/-- Every channel-readiness store so far happened at an index at most the
current channel counter `ichan`. -/
def idxBound (s : PState) : Prop := ∀ p ∈ s.readyWrites, p.1 ≤ s.ichan

/-- One line of configuration reading preserves `idxBound`: only
`new_channel` stores a readiness value, and it stores it at the freshly
incremented index. -/
theorem stepLine_idxBound {mc mp : Nat} {s s' : PState} {l : ConfLine}
    (h : stepLine mc mp s l = .ok s') (hb : idxBound s) : idxBound s' := by
  cases l with
  | newChannel =>
      simp only [stepLine] at h
      have := chanCheck_ok h
      subst this
      intro p hp
      rcases List.mem_cons.mp hp with hh | ht
      · subst hh; simp
      · have := hb p ht
        simp only
        omega
  | dvrBufferSize v =>
      simp only [stepLine] at h
      have := chanCheck_ok h
      subst this
      exact hb
  | dvrThreadBufferSize v =>
      simp only [stepLine] at h
      have := chanCheck_ok h
      subst this
      exact hb
  | pids vals =>
      simp only [stepLine] at h
      split at h
      · cases h
      · split at h
        · cases h
        · rename_i s1 ipid hpl
          have := chanCheck_ok h
          subst this
          have hf := pidsLoop_fields _ _ _ hpl
          intro p hp
          simp only at hp ⊢
          rw [hf.2.1] at hp
          rw [hf.1]
          exact hb p hp
  | t2miPid v =>
      simp only [stepLine] at h
      have := chanCheck_ok h
      subst this
      exact hb
  | unknown =>
      simp only [stepLine] at h
      cases h
      exact hb

/-- The whole configuration reading loop preserves `idxBound`. -/
theorem runConf_idxBound {mc mp : Nat} {s' : PState} :
    ∀ (lines : List ConfLine) (s : PState),
      runConf mc mp s lines = .ok s' → idxBound s → idxBound s' := by
  intro lines
  induction lines with
  | nil =>
      intro s h hb
      simp only [runConf] at h
      cases h
      exact hb
  | cons l ls ih =>
      intro s h hb
      simp only [runConf] at h
      split at h
      · cases h
      · rename_i s1 hst
        exact ih _ h (stepLine_idxBound hst hb)

/-- An index one past the current channel counter has never been written, so
its readiness is still the `memset` default `NOT_READY`. -/
theorem readinessAt_fresh {s : PState} (hb : idxBound s) :
    readinessAt s (s.ichan + 1) = ChanReady.NOT_READY := by
  have h0 : s.readyWrites.find? (fun p => p.1 == s.ichan + 1) = none := by
    rw [List.find?_eq_none]
    intro p hp
    have := hb p hp
    simp only [beq_iff_eq]
    omega
  unfold readinessAt
  rw [h0]

/-! Claim theorems. -/

/-- C2: evaluation of the code at the failing input.  With `MAX_CHANNELS = 10`
and `MAX_PIDS = 64`, a configuration consisting of `new_channel` followed by
`pids=8192` is accepted: the reading loop does not exit, the value 8192 is
stored into the channel's pid array, yet 8192 is not a valid 13-bit PID
(13-bit PIDs are at most 8191).  By contrast `pids=8193` is rejected with the
configuration-error code: the acceptance window of the check
`pid < 10 || pid >= 8193` (dvbzap.c line 578) reaches one past the 13-bit
range. -/
theorem C2_pid8192_accepted :
    errOf (runConf 10 64 (initState 20 50) [.newChannel, .pids [8192]]) = none ∧
    ((0 : Int), (0 : Nat), (8192 : Int)) ∈
      (stateOf (runConf 10 64 (initState 20 50) [.newChannel, .pids [8192]])).pidWrites ∧
    ¬ ((8192 : Int) ≤ 8191) ∧
    errOf (runConf 10 64 (initState 20 50) [.newChannel, .pids [8193]]) =
      some ErrCode.ERROR_CONF := by
  decide

/-- C3: evaluation of the code at the failing input.  With `MAX_CHANNELS = 2`
(valid channel indices 0 and 1), a configuration declaring three channels
stores `ALMOST_READY` into `channels[2]` -- an index at, not below, the array
bound -- and the reading loop does not exit, because the too-many-channels
check `ichan > MAX_CHANNELS` (dvbzap.c line 679) uses a strict comparison
placed after the store of line 484.  A fourth declaration stores into
`channels[3]` as well before the check finally fires with
`ERROR_TOO_CHANNELS`. -/
theorem C3_write_beyond_bound :
    (errOf (runConf 2 64 (initState 20 50) [.newChannel, .newChannel, .newChannel]) = none ∧
     ((2 : Int), ChanReady.ALMOST_READY) ∈
       (stateOf (runConf 2 64 (initState 20 50)
         [.newChannel, .newChannel, .newChannel])).readyWrites) ∧
    (errOf (runConf 2 64 (initState 20 50)
        [.newChannel, .newChannel, .newChannel, .newChannel]) =
       some ErrCode.ERROR_TOO_CHANNELS ∧
     ((3 : Int), ChanReady.ALMOST_READY) ∈
       (stateOf (runConf 2 64 (initState 20 50)
         [.newChannel, .newChannel, .newChannel, .newChannel])).readyWrites) := by
  decide

/-- C6: for every `new_channel` line encountered during configuration
parsing, from any state reachable from the initial state, the newly declared
channel's readiness goes from `NOT_READY` (never written before: freshly
incremented index) to `ALMOST_READY` (dvbzap.c lines 481-486), whether or not
the subsequent channel-count check exits. -/
theorem C6_new_channel_transition (mc mp : Nat) (dDvr dThread : Int)
    (lines : List ConfLine) (s : PState)
    (h : runConf mc mp (initState dDvr dThread) lines = .ok s) :
    readinessAt s (s.ichan + 1) = ChanReady.NOT_READY ∧
    readinessAt (stateOf (stepLine mc mp s .newChannel)) (s.ichan + 1) =
      ChanReady.ALMOST_READY := by
  have hb : idxBound s := by
    apply runConf_idxBound lines _ h
    intro p hp
    simp [initState] at hp
  refine ⟨readinessAt_fresh hb, ?_⟩
  simp only [stepLine, stateOf_chanCheck]
  unfold readinessAt
  simp [List.find?]

/-- C6 witness: on the empty configuration the first `new_channel` line
declares channel 0 and moves it from `NOT_READY` to `ALMOST_READY`. -/
theorem C6_new_channel_transition_witness :
    readinessAt (initState 20 50) ((initState 20 50).ichan + 1) = ChanReady.NOT_READY ∧
    readinessAt (stateOf (stepLine 10 64 (initState 20 50) .newChannel))
      ((initState 20 50).ichan + 1) = ChanReady.ALMOST_READY :=
  C6_new_channel_transition 10 64 20 50 [] (initState 20 50) rfl

/-- C10: a `t2mi_pid` line whose value is outside 1..8192 is not a fatal
configuration error: the value is forced to 4096 (with a logged warning,
dvbzap.c lines 654-664) and the reading loop continues (the only exit
reachable from this line is the unrelated channel-count check, which does not
fire from a state whose channel counter is within bounds). -/
theorem C10_t2mi_forced_4096 (mc mp : Nat) (s : PState) (v : Int)
    (hreach : s.ichan ≤ (mc : Int)) (hv : v < 1 ∨ v > 8192) :
    stepLine mc mp s (.t2miPid v) = .ok { s with t2miPid := 4096 } := by
  simp only [stepLine, chanCheck]
  rw [if_pos hv]
  rw [if_neg (by simpa using not_lt.mpr hreach)]

/-- C10 witness: `t2mi_pid=0` from the initial state is forced to 4096 and
parsing continues. -/
theorem C10_t2mi_forced_4096_witness :
    stepLine 10 64 (initState 20 50) (.t2miPid 0) =
      .ok { initState 20 50 with t2miPid := 4096 } :=
  C10_t2mi_forced_4096 10 64 (initState 20 50) 0 (by decide) (by decide)

/-- C9: after configuration processing (the reading loop followed by the
fix-ups of dvbzap.c lines 731-743) the acquisition-buffer sizes satisfy
`dvr_buffer_size >= 1`, `max_thread_buffer_size >= dvr_buffer_size`, and
`dvr_buffer_size >= 20` whenever T2-MI demuxing is enabled; moreover an
out-of-range `dvr_buffer_size` value is clamped with a warning rather than
rejected (the option itself never produces a configuration error, and the
clamped value is at least 1).  The hypothesis `1 ≤ dDvr` reflects the
compile-time default `DEFAULT_TS_BUFFER_SIZE` (a positive packet count from
the missing header mumudvb.h). -/
theorem C9_buffer_invariants (mc mp : Nat) (dDvr dThread : Int) (hD : 1 ≤ dDvr)
    (lines : List ConfLine) (s : PState)
    (h : runConf mc mp (initState dDvr dThread) lines = .ok s)
    (t : PState) (v : Int) :
    1 ≤ (postConf s).dvrBufferSize ∧
    (postConf s).dvrBufferSize ≤ (postConf s).maxThreadBufferSize ∧
    (0 < (postConf s).t2miPid → 20 ≤ (postConf s).dvrBufferSize) ∧
    errOf (stepLine mc mp t (.dvrBufferSize v)) ≠ some ErrCode.ERROR_CONF ∧
    1 ≤ (stateOf (stepLine mc mp t (.dvrBufferSize v))).dvrBufferSize := by
  have hs : 1 ≤ s.dvrBufferSize := by
    apply runConf_dvr_ge_one lines _ h
    simpa [initState] using hD
  refine ⟨?_, ?_, ?_, ?_, ?_⟩
  · unfold postConf t2miFix
    split <;> split <;> simp_all
  · unfold postConf
    split <;> simp_all
  · unfold postConf t2miFix
    split <;> split <;> simp_all
  · simp only [stepLine]
    rcases errOf_chanCheck mc { t with
      dvrBufferSize := if v ≤ 0 then 1 else v
      showBufferStats := true } with hc | hc <;> rw [hc] <;> simp
  · simp only [stepLine, stateOf_chanCheck]
    split <;> omega

/-- C9 witness: the empty configuration with defaults 20 and 50 satisfies
every conjunct, instantiating the clamping conjuncts at the value -7. -/
theorem C9_buffer_invariants_witness :
    1 ≤ (postConf (initState 20 50)).dvrBufferSize ∧
    (postConf (initState 20 50)).dvrBufferSize ≤
      (postConf (initState 20 50)).maxThreadBufferSize ∧
    (0 < (postConf (initState 20 50)).t2miPid →
      20 ≤ (postConf (initState 20 50)).dvrBufferSize) ∧
    errOf (stepLine 10 64 (initState 20 50) (.dvrBufferSize (-7))) ≠
      some ErrCode.ERROR_CONF ∧
    1 ≤ (stateOf (stepLine 10 64 (initState 20 50) (.dvrBufferSize (-7)))).dvrBufferSize :=
  C9_buffer_invariants 10 64 20 50 (by decide) [] (initState 20 50) rfl
    (initState 20 50) (-7)

/-- C4 counterexample: the handler does not implement exactly the claimed
policy.  At the concrete input SIGALRM with an interrupt already pending and
the card not tuned, the code takes the shutdown branch
(`set_interrupted(SIGALRM)`, dvbzap.c line 1021, because the SIGALRM branch
of line 1005 requires `!get_interrupted()`), whereas the claimed policy exits
with the tuning-error code. -/
theorem C4_policy_counterexample :
    SignalHandler SIGALRM true (some false) ≠
      claimedSignalPolicy SIGALRM (some false) ∧
    SignalHandler SIGALRM true (some false) = SigAction.setInterrupted SIGALRM ∧
    claimedSignalPolicy SIGALRM (some false) =
      SigAction.exitProcess ErrCode.ERROR_TUNE := by
  decide

/-- C4 amended: the handler implements the claimed policy except that a
SIGALRM delivered while an interrupt is already pending falls through to the
shutdown branch and re-records SIGALRM as the exit cause. -/
theorem C4_signal_policy (signum : Nat) (interrupted : Bool) (cardTuned : Option Bool) :
    SignalHandler signum interrupted cardTuned =
      if signum = SIGALRM ∧ interrupted = true then SigAction.setInterrupted SIGALRM
      else claimedSignalPolicy signum cardTuned := by
  cases interrupted with
  | false => simp [SignalHandler, claimedSignalPolicy, ite_not]
  | true =>
      by_cases hA : signum = SIGALRM
      · subst hA
        rfl
      · simp [SignalHandler, claimedSignalPolicy, hA, ite_not]

/-- C7 counterexample: the tuning-timeout alarm does not unconditionally exit
with the tuning-error code while the card is untuned -- when an interrupt is
already pending, the SIGALRM invocation of the handler takes the shutdown
branch instead (dvbzap.c lines 1005-1013 require `!get_interrupted()`). -/
theorem C7_timeout_counterexample :
    SignalHandler SIGALRM true (some false) ≠
      SigAction.exitProcess ErrCode.ERROR_TUNE := by
  decide

/-- C7 amended: when an output sink is configured and a non-zero tuning
timeout is set, `main` arms the alarm before any packet is read (the model's
trace contains no packet event at all), and a SIGALRM delivered while the
card is not yet tuned and no shutdown interrupt is pending makes the process
exit with the tuning-error code. -/
theorem C7_tuning_timeout (e : MainEnv) (interrupted : Bool)
    (hs : ((e.multicast && decide (e.ttl ≠ 0)) || e.unicast) = true)
    (ht : e.tuningTimeout ≠ 0)
    (hi : interrupted = false) :
    Ev.armAlarm e.tuningTimeout ∈ mainAfterConfig e ∧
    SignalHandler SIGALRM interrupted (some false) =
      SigAction.exitProcess ErrCode.ERROR_TUNE := by
  constructor
  · unfold mainAfterConfig
    rw [if_pos hs]
    simp [signalPhase, fileCreationPhase, ht]
  · subst hi
    rfl

/-- C7 witness: a concrete environment with multicast output and a 10-second
tuning timeout. -/
theorem C7_tuning_timeout_witness :
    Ev.armAlarm (10 : Int) ∈ mainAfterConfig
      { multicast := true, ttl := 2, unicast := false, streamedFileOk := true,
        notStreamedFileOk := true, noDaemon := true, pidFileOk := true,
        fileInput := false, openOk := true, tuneOk := true, tuningTimeout := 10 } ∧
    SignalHandler SIGALRM false (some false) =
      SigAction.exitProcess ErrCode.ERROR_TUNE :=
  C7_tuning_timeout
    { multicast := true, ttl := 2, unicast := false, streamedFileOk := true,
      notStreamedFileOk := true, noDaemon := true, pidFileOk := true,
      fileInput := false, openOk := true, tuneOk := true, tuningTimeout := 10 }
    false (by decide) (by decide) rfl

/-- Inventory of the events the file-creation phase can emit. -/
theorem mem_fileCreationPhase {e : MainEnv} {x : Ev} (h : x ∈ fileCreationPhase e) :
    x = Ev.createStreamedFile ∨ x = Ev.createNotStreamedFile ∨
    x = Ev.disableWriteStreamed := by
  by_cases h1 : e.streamedFileOk <;> by_cases h2 : e.notStreamedFileOk <;>
    simp [fileCreationPhase, h1, h2] at h <;> tauto

/-- Inventory of the events the signal-installation phase can emit. -/
theorem mem_signalPhase {e : MainEnv} {x : Ev} (h : x ∈ signalPhase e) :
    x = Ev.installSignalHandlers ∨ x = Ev.armAlarm e.tuningTimeout := by
  by_cases h1 : e.tuningTimeout ≠ 0 <;> simp [signalPhase, h1] at h <;> tauto

/-- Inventory of the events the post-open phase can emit. -/
theorem mem_postOpenPhase {e : MainEnv} {x : Ev} (h : x ∈ postOpenPhase e) :
    x = Ev.exitNow ErrCode.ERROR_CREATE_FILE ∨ x = Ev.writePidFile ∨
    x = Ev.tuneCard ∨ x = Ev.setCardTuned ∨ x = Ev.closeCardFd ∨
    x = Ev.callMumudvbClose ∨
    x = Ev.setInterrupted (Cause.errShifted ErrCode.ERROR_TUNE) := by
  unfold postOpenPhase tuneFailTail at h
  by_cases h1 : e.noDaemon <;> by_cases h2 : e.pidFileOk <;>
    by_cases h3 : e.fileInput <;> by_cases h4 : e.tuneOk <;>
    simp [h1, h2, h3, h4] at h <;> tauto

/-- Inventory of the events the whole post-configuration part of `main` can
emit: everything comes from one of the phases, the frontend open, the
open-failure tail, or the no-sink exit path. -/
theorem mem_mainAfterConfig {e : MainEnv} {x : Ev} (h : x ∈ mainAfterConfig e) :
    x ∈ fileCreationPhase e ∨ x ∈ signalPhase e ∨ x = Ev.openFrontend ∨
    x ∈ postOpenPhase e ∨ x ∈ tuneFailTail ∨ x ∈ sinkCheckFailPath := by
  unfold mainAfterConfig at h
  split at h
  · simp only [List.append_assoc, List.mem_append] at h
    rcases h with h | h | h | h
    · exact Or.inl h
    · exact Or.inr (Or.inl h)
    · simp only [List.mem_singleton] at h
      exact Or.inr (Or.inr (Or.inl h))
    · split at h
      · exact Or.inr (Or.inr (Or.inr (Or.inl h)))
      · exact Or.inr (Or.inr (Or.inr (Or.inr (Or.inl h))))
  · exact Or.inr (Or.inr (Or.inr (Or.inr (Or.inr h))))

/-- No branch of `main` after configuration processing emits a pipeline
event: the trace never performs packet acquisition, PID routing, PSI-table
rewriting or network dispatch. -/
theorem mainAfterConfig_no_pipeline (e : MainEnv) (x : Ev)
    (hx : x = Ev.acquirePackets ∨ x = Ev.routePacket ∨
          x = Ev.rewritePSITables ∨ x = Ev.dispatchToSinks) :
    x ∉ mainAfterConfig e := by
  intro hmem
  have h := mem_mainAfterConfig hmem
  rcases hx with h0 | h0 | h0 | h0 <;> subst h0 <;>
    rcases h with h | h | h | h | h | h <;>
    first
      | exact absurd (mem_fileCreationPhase h) (by simp)
      | exact absurd (mem_signalPhase h) (by simp)
      | exact absurd (mem_postOpenPhase h) (by simp)
      | simp [tuneFailTail, sinkCheckFailPath] at h

/-- Under the hypotheses that a PID file is not needed or can be created and
that tuning succeeds (or the input is a file), the post-open part of `main`
ends in: record the card as tuned, close the card descriptors, call the
shutdown routine. -/
theorem postOpenPhase_tuned_tail (e : MainEnv)
    (hp : e.noDaemon = true ∨ e.pidFileOk = true)
    (htu : e.fileInput = true ∨ e.tuneOk = true) :
    postOpenPhase e =
      ((if e.noDaemon then [] else [Ev.writePidFile]) ++
       (if e.fileInput then [] else [Ev.tuneCard])) ++
      [Ev.setCardTuned, Ev.closeCardFd, Ev.callMumudvbClose] := by
  unfold postOpenPhase
  have h1 : (!e.noDaemon && !e.pidFileOk) = false := by
    rcases hp with h | h <;> simp [h]
  have h2 : (e.fileInput || e.tuneOk) = true := by
    rcases htu with h | h <;> simp [h]
  rw [h1, h2]
  simp

/-- C1 counterexample: at a concrete environment where an output sink is
configured, the frontend open succeeds, the card tunes successfully and no
interrupt is pending, `main` does not enter the transport-stream processing
pipeline; its trace records the card as tuned and then immediately closes
the card descriptors and calls the shutdown routine
(dvbzap.c lines 957-964). -/
theorem C1_no_pipeline_counterexample :
    ¬ entersPipeline (mainAfterConfig
      { multicast := true, ttl := 1, unicast := false, streamedFileOk := true,
        notStreamedFileOk := true, noDaemon := true, pidFileOk := true,
        fileInput := false, openOk := true, tuneOk := true, tuningTimeout := 0 }) ∧
    mainAfterConfig
      { multicast := true, ttl := 1, unicast := false, streamedFileOk := true,
        notStreamedFileOk := true, noDaemon := true, pidFileOk := true,
        fileInput := false, openOk := true, tuneOk := true, tuningTimeout := 0 } =
      [Ev.createStreamedFile, Ev.createNotStreamedFile, Ev.installSignalHandlers,
       Ev.openFrontend, Ev.tuneCard, Ev.setCardTuned, Ev.closeCardFd,
       Ev.callMumudvbClose] := by
  decide

/-- C1 amended: whenever the frame source opens successfully and the card
tunes successfully (and the PID-file step does not abort), the program
records the card as tuned and then closes the card descriptors and exits
through the orderly shutdown routine; no packet acquisition, PID routing,
table rewriting or network dispatch ever occurs. -/
theorem C1_tune_then_close (e : MainEnv)
    (hs : ((e.multicast && decide (e.ttl ≠ 0)) || e.unicast) = true)
    (ho : e.openOk = true)
    (hp : e.noDaemon = true ∨ e.pidFileOk = true)
    (htu : e.fileInput = true ∨ e.tuneOk = true) :
    ¬ entersPipeline (mainAfterConfig e) ∧
    ∃ pre, mainAfterConfig e =
      pre ++ [Ev.setCardTuned, Ev.closeCardFd, Ev.callMumudvbClose] := by
  constructor
  · intro hpipe
    rcases hpipe with h | h | h | h
    · exact mainAfterConfig_no_pipeline e _ (Or.inl rfl) h
    · exact mainAfterConfig_no_pipeline e _ (Or.inr (Or.inl rfl)) h
    · exact mainAfterConfig_no_pipeline e _ (Or.inr (Or.inr (Or.inl rfl))) h
    · exact mainAfterConfig_no_pipeline e _ (Or.inr (Or.inr (Or.inr rfl))) h
  · refine ⟨fileCreationPhase e ++ signalPhase e ++ [Ev.openFrontend] ++
      ((if e.noDaemon then [] else [Ev.writePidFile]) ++
       (if e.fileInput then [] else [Ev.tuneCard])), ?_⟩
    unfold mainAfterConfig
    rw [if_pos hs, if_pos ho, postOpenPhase_tuned_tail e hp htu]
    simp [List.append_assoc]

/-- C1 amended witness: the counterexample environment instantiates the
amended statement. -/
theorem C1_tune_then_close_witness :
    ¬ entersPipeline (mainAfterConfig
      { multicast := false, ttl := 0, unicast := true, streamedFileOk := true,
        notStreamedFileOk := true, noDaemon := false, pidFileOk := true,
        fileInput := true, openOk := true, tuneOk := false, tuningTimeout := 5 }) ∧
    ∃ pre, mainAfterConfig
      { multicast := false, ttl := 0, unicast := true, streamedFileOk := true,
        notStreamedFileOk := true, noDaemon := false, pidFileOk := true,
        fileInput := true, openOk := true, tuneOk := false, tuningTimeout := 5 } =
      pre ++ [Ev.setCardTuned, Ev.closeCardFd, Ev.callMumudvbClose] :=
  C1_tune_then_close _ (by decide) (by decide) (Or.inr (by decide)) (Or.inl (by decide))

/-- C5: when neither multicast (after the TTL adjustment of dvbzap.c
lines 797-801) nor unicast output is configured, `main` records the
configuration-error code as the interruption cause and goes straight to the
orderly shutdown routine (dvbzap.c lines 818-823), without opening or tuning
the card. -/
theorem C5_no_sink_exit (e : MainEnv)
    (h : ((e.multicast && decide (e.ttl ≠ 0)) || e.unicast) = false) :
    mainAfterConfig e =
      [Ev.setInterrupted (Cause.errShifted ErrCode.ERROR_CONF), Ev.callMumudvbClose] ∧
    Ev.openFrontend ∉ mainAfterConfig e ∧
    Ev.tuneCard ∉ mainAfterConfig e := by
  have hm : mainAfterConfig e = sinkCheckFailPath := by
    unfold mainAfterConfig
    rw [if_neg]
    intro hc
    rw [h] at hc
    exact Bool.false_ne_true hc
  rw [hm]
  refine ⟨rfl, by decide, by decide⟩

/-- C5 witness: a concrete environment with multicast disabled through a zero
TTL and no unicast. -/
theorem C5_no_sink_exit_witness :
    mainAfterConfig
      { multicast := true, ttl := 0, unicast := false, streamedFileOk := true,
        notStreamedFileOk := true, noDaemon := true, pidFileOk := true,
        fileInput := false, openOk := false, tuneOk := false, tuningTimeout := 0 } =
      [Ev.setInterrupted (Cause.errShifted ErrCode.ERROR_CONF), Ev.callMumudvbClose] ∧
    Ev.openFrontend ∉ mainAfterConfig
      { multicast := true, ttl := 0, unicast := false, streamedFileOk := true,
        notStreamedFileOk := true, noDaemon := true, pidFileOk := true,
        fileInput := false, openOk := false, tuneOk := false, tuningTimeout := 0 } ∧
    Ev.tuneCard ∉ mainAfterConfig
      { multicast := true, ttl := 0, unicast := false, streamedFileOk := true,
        notStreamedFileOk := true, noDaemon := true, pidFileOk := true,
        fileInput := false, openOk := false, tuneOk := false, tuningTimeout := 0 } :=
  C5_no_sink_exit _ (by decide)

/-- C8: with an output sink configured, `main` attempts to create both the
streamed-channels list file and the not-streamed list file
(dvbzap.c lines 836-856); when either creation fails it disables the
channel-list-writing feature (with a logged warning) and continues to the
card-handling phase rather than terminating: no interruption and no hard
exit is raised by the file-creation phase. -/
theorem C8_channel_list_files (e : MainEnv) (c : Cause) (er : ErrCode)
    (hs : ((e.multicast && decide (e.ttl ≠ 0)) || e.unicast) = true) :
    Ev.createStreamedFile ∈ mainAfterConfig e ∧
    Ev.createNotStreamedFile ∈ mainAfterConfig e ∧
    (e.streamedFileOk = false → Ev.disableWriteStreamed ∈ mainAfterConfig e) ∧
    (e.notStreamedFileOk = false → Ev.disableWriteStreamed ∈ mainAfterConfig e) ∧
    Ev.openFrontend ∈ mainAfterConfig e ∧
    Ev.setInterrupted c ∉ fileCreationPhase e ∧
    Ev.exitNow er ∉ fileCreationPhase e := by
  unfold mainAfterConfig
  rw [if_pos hs]
  unfold fileCreationPhase signalPhase
  refine ⟨by simp, by simp, ?_, ?_, by simp, ?_, ?_⟩
  · intro hf
    simp [hf]
  · intro hf
    simp [hf]
  · split_ifs <;> simp
  · split_ifs <;> simp

/-- C8 witness: a concrete environment in which creating the streamed list
fails and creating the not-streamed list succeeds. -/
theorem C8_channel_list_files_witness :
    Ev.createStreamedFile ∈ mainAfterConfig
      { multicast := true, ttl := 3, unicast := false, streamedFileOk := false,
        notStreamedFileOk := true, noDaemon := true, pidFileOk := true,
        fileInput := false, openOk := true, tuneOk := true, tuningTimeout := 0 } ∧
    Ev.createNotStreamedFile ∈ mainAfterConfig
      { multicast := true, ttl := 3, unicast := false, streamedFileOk := false,
        notStreamedFileOk := true, noDaemon := true, pidFileOk := true,
        fileInput := false, openOk := true, tuneOk := true, tuningTimeout := 0 } ∧
    ((false : Bool) = false → Ev.disableWriteStreamed ∈ mainAfterConfig
      { multicast := true, ttl := 3, unicast := false, streamedFileOk := false,
        notStreamedFileOk := true, noDaemon := true, pidFileOk := true,
        fileInput := false, openOk := true, tuneOk := true, tuningTimeout := 0 }) ∧
    ((true : Bool) = false → Ev.disableWriteStreamed ∈ mainAfterConfig
      { multicast := true, ttl := 3, unicast := false, streamedFileOk := false,
        notStreamedFileOk := true, noDaemon := true, pidFileOk := true,
        fileInput := false, openOk := true, tuneOk := true, tuningTimeout := 0 }) ∧
    Ev.openFrontend ∈ mainAfterConfig
      { multicast := true, ttl := 3, unicast := false, streamedFileOk := false,
        notStreamedFileOk := true, noDaemon := true, pidFileOk := true,
        fileInput := false, openOk := true, tuneOk := true, tuningTimeout := 0 } ∧
    Ev.setInterrupted (Cause.sig 2) ∉ fileCreationPhase
      { multicast := true, ttl := 3, unicast := false, streamedFileOk := false,
        notStreamedFileOk := true, noDaemon := true, pidFileOk := true,
        fileInput := false, openOk := true, tuneOk := true, tuningTimeout := 0 } ∧
    Ev.exitNow ErrCode.ERROR_CREATE_FILE ∉ fileCreationPhase
      { multicast := true, ttl := 3, unicast := false, streamedFileOk := false,
        notStreamedFileOk := true, noDaemon := true, pidFileOk := true,
        fileInput := false, openOk := true, tuneOk := true, tuningTimeout := 0 } :=
  C8_channel_list_files _ (Cause.sig 2) ErrCode.ERROR_CREATE_FILE (by decide)

end Dvbzap
